import Mathlib

/-!
Verification of `convert_missing_codes.py`.

The program is a batch converter: for each year in `range(2016, 2023)` it
reads `<dir>/nsch_<year>_topical.dta` with
`pd.read_stata(..., convert_missing=True)`, converts every column to
string (`astype(str)`), replaces the four Stata missing-value sentinel
labels by fixed integer codes (`recode_missing_data`), rewrites "2A"
case-insensitively to "2" in the `stratum` column
(`handle_stratum_column`), coerces every column to numeric with
`pd.to_numeric(..., errors="coerce")`, writes the result to
`<dir>/nsch_<year>_topical.rds` and prints `Saved: <path>`.

A pandas DataFrame is modelled as an ordered list of named columns, each
an ordered list of cells; rational numbers stand for the numeric values.
-/

/-- A dataframe: ordered named columns, each an ordered list of cells. -/
abbrev Df (α : Type) := List (String × List α)

/-- A cell as loaded by `pd.read_stata(..., convert_missing=True)`: a
string, an integer, a preserved Stata missing-value sentinel (displayed
as its label, e.g. ".m"), or a generic NaN.  Float cells are omitted
from the model: no claim below depends on Python float formatting. -/
inductive SCell where
  | text (s : String)
  | intNum (n : Int)
  | missing (label : String)
  | null
deriving DecidableEq

/-- Python `str()` of a cell, as applied by `data.astype(str)`: strings
are unchanged, integers print in decimal, a preserved Stata missing
value prints as its label, and NaN prints as "nan". -/
def SCell.toStr : SCell → String
  | .text s => s
  | .intNum n => toString n
  | .missing l => l
  | .null => "nan"

/-- A cell of an object-dtype column after recoding: a Python `str`, a
Python `int` (the recode targets 996 to 999), or a float NaN (produced
by the pandas `.str` accessor on non-string elements). -/
inductive PyCell where
  | s (v : String)
  | i (n : Int)
  | nan
deriving DecidableEq

/-- The `missing_code_map` constant of `recode_missing_data`. -/
def missing_code_map : List (String × Int) :=
  [(".m", 996), (".n", 997), (".l", 998), (".d", 999)]

/-- One cell of `Series.replace(missing_code_map)`: a cell whose whole
value equals a key of the map becomes the mapped integer; every other
cell is unchanged. -/
def recodeCell (v : String) : PyCell :=
  match missing_code_map.find? (fun p => p.1 == v) with
  | some p => .i p.2
  | none => .s v

/-- `recode_missing_data`: applies the sentinel replacement to every
column.  The source guards on `data[col].dtype == "object"`; the
function is only called after `astype(str)`, where every column holds
Python strings and hence has dtype `object`, so the guard holds for
every column of the modelled input. -/
def recode_missing_data (data : Df String) : Df PyCell :=
  data.map (fun c => (c.1, c.2.map recodeCell))

/-- Character-list core of `re.sub("2A", "2", s, flags=re.IGNORECASE)`:
non-overlapping, left-to-right replacement of the two-character pattern
"2A" (letter matched case-insensitively) by "2". -/
def replace2A : List Char → List Char
  | [] => []
  | [c] => [c]
  | c :: d :: rest2 =>
    if c = '2' ∧ (d = 'A' ∨ d = 'a') then '2' :: replace2A rest2
    else c :: replace2A (d :: rest2)

/-- True iff the pattern "2A"/"2a" occurs somewhere in the list. -/
def has2A : List Char → Bool
  | [] => false
  | [_] => false
  | c :: d :: rest2 =>
    (decide (c = '2' ∧ (d = 'A' ∨ d = 'a'))) || has2A (d :: rest2)

/-- `Series.str.replace("2A", "2", case=False)` on one string. -/
def str_replace_2A (v : String) : String := ⟨replace2A v.data⟩

/-- One cell of the `.str.replace` call on the `stratum` column: string
cells get the substring replacement; non-string cells (the recoded
integers, NaN) become NaN, because pandas `.str` methods return NaN on
non-string elements of an object column. -/
def stratumCell : PyCell → PyCell
  | .s v => .s (str_replace_2A v)
  | _ => .nan

/-- `handle_stratum_column`: if a column named "stratum" exists, apply
the replacement to it; all other columns, and the unused `year`
argument, are untouched.  A dataframe without that column is returned
unchanged. -/
def handle_stratum_column (data : Df PyCell) (year : Nat) : Df PyCell :=
  data.map (fun c => if c.1 = "stratum" then (c.1, c.2.map stratumCell) else c)

/-- Numeric value of a digit string. -/
def natOfDigits (cs : List Char) : Nat :=
  cs.foldl (fun a c => 10 * a + (c.toNat - 48)) 0

/-- Unsigned decimal literal: digits with an optional fractional part,
returned as (numerator, denominator).  Models the decimal forms accepted
by the pandas string-to-number conversion used by `pd.to_numeric`;
exponent and infinity forms are omitted, since no claim depends on
them. -/
def parseUnsigned (cs : List Char) : Option (Nat × Nat) :=
  let intPart := cs.takeWhile (fun c => c.isDigit)
  let rest := cs.dropWhile (fun c => c.isDigit)
  match rest with
  | [] => if intPart.isEmpty then none else some (natOfDigits intPart, 1)
  | '.' :: frac =>
    if (frac.all (fun c => c.isDigit)) && !(intPart.isEmpty && frac.isEmpty) then
      some (natOfDigits (intPart ++ frac), 10 ^ frac.length)
    else none
  | _ => none

/-- `pd.to_numeric(·, errors="coerce")` on one string: the parsed
number, or the null marker when parsing fails.  The string "nan" (the
stringification of NaN) yields the null marker either way: pandas parses
it to NaN, which is the null marker. -/
def parseNumeric (v : String) : Option Rat :=
  match v.data with
  | '-' :: cs => (parseUnsigned cs).map (fun p => mkRat (-(p.1 : Int)) p.2)
  | '+' :: cs => (parseUnsigned cs).map (fun p => mkRat (p.1 : Int) p.2)
  | cs => (parseUnsigned cs).map (fun p => mkRat (p.1 : Int) p.2)

/-- `pd.to_numeric(·, errors="coerce")` on one object-dtype cell:
strings are parsed, Python integers pass through as their numeric value,
NaN stays the null marker. -/
def toNumericCell : PyCell → Option Rat
  | .s v => parseNumeric v
  | .i n => some (mkRat n 1)
  | .nan => none

/-- The numeric-coercion loop of `process_data`, applied to every
column. -/
def to_numeric_df (data : Df PyCell) : Df (Option Rat) :=
  data.map (fun c => (c.1, c.2.map toNumericCell))

/-- Result dtype of `pd.to_numeric` on one column. -/
inductive NDtype where
  | int64
  | float64
deriving DecidableEq

/-- Dtype inference of `pd.to_numeric`: int64 when every cell is a
non-null integer, float64 when any cell is null or fractional. -/
def inferDtype (cells : List (Option Rat)) : NDtype :=
  if cells.all (fun c => match c with | some q => q.den == 1 | none => false)
  then .int64 else .float64

/-- `data.astype(str)` over the whole dataframe. -/
def astype_str (data : Df SCell) : Df String :=
  data.map (fun c => (c.1, c.2.map SCell.toStr))

/-- The per-year transformation body of `process_data`: stringify,
recode sentinels, normalize stratum, coerce numeric. -/
def pipeline (year : Nat) (data : Df SCell) : Df (Option Rat) :=
  to_numeric_df (handle_stratum_column (recode_missing_data (astype_str data)) year)

/-- Source path template of `process_data`. -/
def dtaPath (csv_dir : String) (year : Nat) : String :=
  csv_dir ++ "/nsch_" ++ toString year ++ "_topical.dta"

/-- Destination path template of `process_data`. -/
def rdsPath (csv_dir : String) (year : Nat) : String :=
  csv_dir ++ "/nsch_" ++ toString year ++ "_topical.rds"

/-- Observable effects of one batch run: files read (in order), files
written with their contents (in order), console lines printed (in
order), and the uncaught exception, if any. -/
structure BatchResult where
  reads : List String
  written : List (String × Df (Option Rat))
  console : List String
  error : Option String
deriving DecidableEq

/-- `process_data`: iterate the years in order; for each, read the
source file, run the pipeline, write the destination file, print a
completion line.  Reading is the fallible step: `pd.read_stata` raising
is modelled by the reader returning an error, which propagates uncaught
and stops the loop, leaving earlier writes in place. -/
def process_data (years : List Nat) (csv_dir : String)
    (read_stata : String → Except String (Df SCell)) : BatchResult :=
  match years with
  | [] => ⟨[], [], [], none⟩
  | year :: rest =>
    match read_stata (dtaPath csv_dir year) with
    | .error e => ⟨[dtaPath csv_dir year], [], [], some e⟩
    | .ok data =>
      let r := process_data rest csv_dir read_stata
      ⟨dtaPath csv_dir year :: r.reads,
       (rdsPath csv_dir year, pipeline year data) :: r.written,
       ("Saved: " ++ rdsPath csv_dir year) :: r.console,
       r.error⟩

/-- The year sequence of the reference invocation, `range(2016, 2023)`. -/
def years_run : List Nat := List.range' 2016 (2023 - 2016)

/-- The reference invocation at the bottom of the script. -/
def main_invocation (read_stata : String → Except String (Df SCell)) : BatchResult :=
  process_data years_run "download-nsch-data" read_stata

/-- The stratum stage restricted to one cell of a column with the given
name: the replacement fires only on the column named "stratum". -/
def stratumStep (name : String) (p : PyCell) : PyCell :=
  if name = "stratum" then stratumCell p else p

/-- The whole pipeline on a single cell of a column with the given
name. -/
def cellPipe (name : String) (x : SCell) : Option Rat :=
  toNumericCell (stratumStep name (recodeCell (SCell.toStr x)))

/-- True iff the cell is a Python string. -/
def PyCell.isStr : PyCell → Bool
  | .s _ => true
  | _ => false

/-- True iff the cell is a Python integer. -/
def PyCell.isInt : PyCell → Bool
  | .i _ => true
  | _ => false

/-- Validation performed by the pandas `.str` accessor on an object
column: the accessor raises AttributeError when the column's inferred
type is not string-like.  With the cell kinds occurring here (strings,
integers, NaN) that happens exactly when the column holds an integer but
no string: such a column infers as "integer" (pandas versions whose
`replace` downcasts an all-integer object column to int64 reject it the
same way).  Empty, all-NaN, all-string and mixed columns are accepted,
and on accepted columns `.str` methods yield NaN for the non-string
elements. -/
def strAccessorRaises (cells : List PyCell) : Bool :=
  (cells.any fun p => p.isInt) && !(cells.any fun p => p.isStr)

/-- `handle_stratum_column` with the `.str` accessor validation made
explicit: identical to `handle_stratum_column`, except that a "stratum"
column on which the accessor raises turns the call into the propagated
AttributeError instead of a result dataframe. -/
def handle_stratum_column_checked (data : Df PyCell) (year : Nat) :
    Except String (Df PyCell) :=
  if data.any (fun c => c.1 == "stratum" && strAccessorRaises c.2) then
    .error "AttributeError: Can only use .str accessor with string values!"
  else
    .ok (handle_stratum_column data year)

/-- The per-year transformation with the stratum stage's accessor
validation: the variant of `pipeline` that also models the
AttributeError raised by `data["stratum"].str` when the stratum column
contains no string elements. -/
def pipelineE (year : Nat) (data : Df SCell) : Except String (Df (Option Rat)) :=
  match handle_stratum_column_checked (recode_missing_data (astype_str data)) year with
  | .error e => .error e
  | .ok d => .ok (to_numeric_df d)

/-- Substring replacement is the identity on strings without an
occurrence of the pattern. -/
theorem replace2A_no_occ : ∀ cs : List Char, has2A cs = false → replace2A cs = cs := by
  intro cs
  induction cs with
  | nil => intro _; rfl
  | cons c rest ih =>
    cases rest with
    | nil => intro _; rfl
    | cons d rest2 =>
      intro h
      simp only [has2A, Bool.or_eq_false_iff, decide_eq_false_iff_not] at h
      simp only [replace2A, if_neg h.1]
      rw [ih h.2]

/-- String-level version of `replace2A_no_occ`. -/
theorem str_replace_2A_no_occ (v : String) (h : has2A v.data = false) :
    str_replace_2A v = v := by
  simp only [str_replace_2A]
  rw [replace2A_no_occ v.data h]

/-- The four pipeline stages compose to one per-cell map on each
column. -/
theorem pipeline_cellwise (year : Nat) (data : Df SCell) :
    pipeline year data = data.map (fun c => (c.1, c.2.map (cellPipe c.1))) := by
  induction data with
  | nil => rfl
  | cons c rest ih =>
    simp only [pipeline, astype_str, recode_missing_data, handle_stratum_column, to_numeric_df,
      List.map_cons] at ih ⊢
    rw [ih]
    by_cases h : c.1 = "stratum" <;>
      simp [h, List.map_map, Function.comp, cellPipe, stratumStep]

/-- When every listed year reads successfully, the batch reads, writes
and prints exactly once per year, in order, and raises nothing. -/
theorem process_data_ok (csv_dir : String)
    (read_stata : String → Except String (Df SCell)) :
    ∀ ys : List Nat, (∀ y ∈ ys, ∃ d, read_stata (dtaPath csv_dir y) = Except.ok d) →
      (process_data ys csv_dir read_stata).reads = ys.map (dtaPath csv_dir) ∧
      (process_data ys csv_dir read_stata).written.map Prod.fst = ys.map (rdsPath csv_dir) ∧
      (process_data ys csv_dir read_stata).console =
        ys.map (fun y => "Saved: " ++ rdsPath csv_dir y) ∧
      (process_data ys csv_dir read_stata).error = none := by
  intro ys
  induction ys with
  | nil => intro _; exact ⟨rfl, rfl, rfl, rfl⟩
  | cons a rest ih =>
    intro h
    obtain ⟨d, hd⟩ := h a (List.mem_cons_self a rest)
    have hrest := ih (fun z hz => h z (List.mem_cons_of_mem a hz))
    refine ⟨?_, ?_, ?_, ?_⟩ <;>
      simp [process_data, hd, hrest.1, hrest.2.1, hrest.2.2.1, hrest.2.2.2]

/-- C1: after stringification, every cell equal to one of the four
sentinel labels ".m", ".n", ".l", ".d" is replaced by the recoding stage
with the integer 996, 997, 998, 999 respectively, and every other cell
is left unchanged; the stage acts columnwise on the whole dataframe. -/
theorem sentinel_recode_totality (data : Df String) (name : String) (cells : List String)
    (hmem : (name, cells) ∈ data) :
    (name, cells.map recodeCell) ∈ recode_missing_data data ∧
    ∀ v : String,
      (v = ".m" → recodeCell v = PyCell.i 996) ∧
      (v = ".n" → recodeCell v = PyCell.i 997) ∧
      (v = ".l" → recodeCell v = PyCell.i 998) ∧
      (v = ".d" → recodeCell v = PyCell.i 999) ∧
      (v ≠ ".m" → v ≠ ".n" → v ≠ ".l" → v ≠ ".d" → recodeCell v = PyCell.s v) := by
  constructor
  · exact List.mem_map_of_mem _ hmem
  · intro v
    refine ⟨?_, ?_, ?_, ?_, ?_⟩
    · intro h; subst h; decide
    · intro h; subst h; decide
    · intro h; subst h; decide
    · intro h; subst h; decide
    · intro hm hn hl hd
      have e1 : ((".m" : String) == v) = false := beq_eq_false_iff_ne.mpr (Ne.symm hm)
      have e2 : ((".n" : String) == v) = false := beq_eq_false_iff_ne.mpr (Ne.symm hn)
      have e3 : ((".l" : String) == v) = false := beq_eq_false_iff_ne.mpr (Ne.symm hl)
      have e4 : ((".d" : String) == v) = false := beq_eq_false_iff_ne.mpr (Ne.symm hd)
      simp [recodeCell, missing_code_map, List.find?, e1, e2, e3, e4]

/-- Witness for C1 at a concrete dataframe and concrete cells. -/
theorem sentinel_recode_totality_witness :
    recodeCell ".d" = PyCell.i 999 ∧ recodeCell "x" = PyCell.s "x" := by
  have h := sentinel_recode_totality [("c", [".d", "x"])] "c" [".d", "x"]
    (List.mem_singleton.mpr rfl)
  exact ⟨(h.2 ".d").2.2.2.1 rfl,
    (h.2 "x").2.2.2.2 (by decide) (by decide) (by decide) (by decide)⟩

/-- C2 counterexample: the claim says a stratum cell whose whole value
is not the label "2A"/"2a" is unchanged, but the code performs substring
replacement: the cell "12A3" becomes "123". -/
theorem stratum_whole_label_counterexample :
    handle_stratum_column [("stratum", [PyCell.s "12A3"])] 2016 =
      [("stratum", [PyCell.s "123"])] ∧
    PyCell.s "123" ≠ PyCell.s "12A3" := by decide

/-- C2 amended: the stratum stage replaces every non-overlapping,
left-to-right, case-insensitive occurrence of the substring "2A" inside
each string cell of the "stratum" column with "2" (so whole-cell
"2A"/"2a" become "2", but also "12A3" becomes "123"); string cells with
no occurrence are unchanged, non-stratum columns are unchanged, and a
dataframe with no "stratum" column is returned unchanged without
error. -/
theorem stratum_substring_replace :
    (∀ (data : Df PyCell) (year : Nat),
        (∀ c ∈ data, c.1 ≠ "stratum") → handle_stratum_column data year = data) ∧
    (∀ (data : Df PyCell) (year : Nat) (name : String) (cells : List PyCell),
        (name, cells) ∈ data → name ≠ "stratum" →
        (name, cells) ∈ handle_stratum_column data year) ∧
    (∀ (data : Df PyCell) (year : Nat) (cells : List PyCell),
        ("stratum", cells) ∈ data →
        ("stratum", cells.map stratumCell) ∈ handle_stratum_column data year) ∧
    (∀ v : String, stratumCell (PyCell.s v) = PyCell.s (str_replace_2A v)) ∧
    stratumCell (PyCell.s "2A") = PyCell.s "2" ∧
    stratumCell (PyCell.s "2a") = PyCell.s "2" ∧
    str_replace_2A "12A3" = "123" ∧
    (∀ v : String, has2A v.data = false → stratumCell (PyCell.s v) = PyCell.s v) := by
  refine ⟨?_, ?_, ?_, fun v => rfl, by decide, by decide, by decide, ?_⟩
  · intro data year hnone
    unfold handle_stratum_column
    rw [List.map_congr_left (fun c hc => by rw [if_neg (hnone c hc)])]
    simp
  · intro data year name cells hmem hname
    unfold handle_stratum_column
    have := List.mem_map_of_mem
      (fun c : String × List PyCell =>
        if c.1 = "stratum" then (c.1, c.2.map stratumCell) else c) hmem
    simpa [if_neg hname] using this
  · intro data year cells hmem
    unfold handle_stratum_column
    have := List.mem_map_of_mem
      (fun c : String × List PyCell =>
        if c.1 = "stratum" then (c.1, c.2.map stratumCell) else c) hmem
    simpa using this
  · intro v h
    simp only [stratumCell]
    rw [str_replace_2A_no_occ v h]

/-- Witness for C2's amended statement at concrete inputs. -/
theorem stratum_substring_replace_witness :
    handle_stratum_column [("c1", [PyCell.s "2A"])] 2016 = [("c1", [PyCell.s "2A"])] ∧
    stratumCell (PyCell.s "9") = PyCell.s "9" := by
  constructor
  · refine stratum_substring_replace.1 [("c1", [PyCell.s "2A"])] 2016 ?_
    intro c hc
    rw [List.mem_singleton] at hc
    subst hc
    decide
  · exact stratum_substring_replace.2.2.2.2.2.2.2 "9" (by decide)

/-- C3: the numeric-coercion stage is total and per-cell: the pipeline
acts as one independent map on each cell, every output cell is either a
numeric value or the null marker (never residual text), and a cell whose
string value fails to parse becomes the null marker for that cell only,
with no error raised. -/
theorem coercion_totality (year : Nat) (data : Df SCell) :
    pipeline year data = data.map (fun c => (c.1, c.2.map (cellPipe c.1))) ∧
    (∀ (name : String) (x : SCell),
        (∃ q : Rat, cellPipe name x = some q) ∨ cellPipe name x = none) ∧
    (∀ (p : PyCell) (v : String), p = PyCell.s v → parseNumeric v = none →
        toNumericCell p = none) := by
  refine ⟨pipeline_cellwise year data, ?_, ?_⟩
  · intro name x
    cases h : cellPipe name x with
    | some q => exact Or.inl ⟨q, rfl⟩
    | none => exact Or.inr rfl
  · intro p v hp hv
    subst hp
    simpa [toNumericCell] using hv

/-- Witness for C3: the unparseable cell "abc" coerces to null. -/
theorem coercion_totality_witness :
    toNumericCell (PyCell.s "abc") = none :=
  (coercion_totality 2016 []).2.2 (PyCell.s "abc") "abc" rfl (by decide)

/-- C4: the full pipeline preserves column identity: same column names,
in the same order, with the same per-column row count; only cell values
change. -/
theorem pipeline_shape_preserved (year : Nat) (data : Df SCell) :
    (pipeline year data).map (fun c => (c.1, c.2.length)) =
      data.map (fun c => (c.1, c.2.length)) := by
  rw [pipeline_cellwise]
  simp [List.map_map, Function.comp]

/-- C5: when reading the source file of some year fails, the error
propagates uncaught: the failing year's read is the last file touched,
no destination file is written for it, no later year is read or
processed, and the files written for the earlier (successful) years
remain in place. -/
theorem read_failure_halts_batch (csv_dir : String)
    (read_stata : String → Except String (Df SCell)) (y : Nat) (e : String)
    (zs ys : List Nat)
    (hfail : read_stata (dtaPath csv_dir y) = Except.error e)
    (hok : ∀ z ∈ ys, ∃ d, read_stata (dtaPath csv_dir z) = Except.ok d) :
    (process_data (ys ++ y :: zs) csv_dir read_stata).error = some e ∧
    (process_data (ys ++ y :: zs) csv_dir read_stata).reads =
      ys.map (dtaPath csv_dir) ++ [dtaPath csv_dir y] ∧
    (process_data (ys ++ y :: zs) csv_dir read_stata).written.map Prod.fst =
      ys.map (rdsPath csv_dir) ∧
    (process_data (ys ++ y :: zs) csv_dir read_stata).console =
      ys.map (fun z => "Saved: " ++ rdsPath csv_dir z) := by
  revert hok
  induction ys with
  | nil =>
    intro _
    simp [process_data, hfail]
  | cons a rest ih =>
    intro hok
    obtain ⟨d, hd⟩ := hok a (List.mem_cons_self a rest)
    have h2 := ih (fun z hz => hok z (List.mem_cons_of_mem a hz))
    refine ⟨?_, ?_, ?_, ?_⟩ <;>
      simp [process_data, hd, h2.1, h2.2.1, h2.2.2.1, h2.2.2.2]

/-- Witness for C5: year 2016 succeeds, 2017 fails, 2018 is scheduled
after; the batch stops with the error and 2018 is never read. -/
theorem read_failure_halts_batch_witness :
    (process_data ([2016] ++ 2017 :: [2018]) "d"
        (fun p => if p = dtaPath "d" 2016 then Except.ok [] else Except.error "missing")).error
      = some "missing" ∧
    (process_data ([2016] ++ 2017 :: [2018]) "d"
        (fun p => if p = dtaPath "d" 2016 then Except.ok [] else Except.error "missing")).reads
      = [dtaPath "d" 2016, dtaPath "d" 2017] := by
  have h := read_failure_halts_batch "d"
    (fun p => if p = dtaPath "d" 2016 then Except.ok [] else Except.error "missing")
    2017 "missing" [2018] [2016]
    (if_neg (by decide))
    (fun z hz => by
      rw [List.mem_singleton] at hz
      subst hz
      exact ⟨[], if_pos rfl⟩)
  exact ⟨h.1, by simpa using h.2.1⟩

/-- C6 counterexample: stratum normalization is not idempotent on every
value: the cell "2AA" normalizes to "2A", and a second application gives
"2". -/
theorem stratum_idempotence_counterexample :
    handle_stratum_column (handle_stratum_column [("stratum", [PyCell.s "2AA"])] 2016) 2016 ≠
      handle_stratum_column [("stratum", [PyCell.s "2AA"])] 2016 := by decide

/-- C6 amended: stratum normalization is idempotent on every string cell
whose once-normalized value contains no remaining case-insensitive
occurrence of "2A" — in particular "2" is a fixed point and "2A"/"2a"
both map to "2" — and on every non-string cell (which normalizes to
NaN); it is not idempotent in general, because the replacement can
create a fresh occurrence, as in "2AA" → "2A" → "2". -/
theorem stratum_idempotence_amended :
    (∀ v : String, has2A (str_replace_2A v).data = false →
        stratumCell (stratumCell (PyCell.s v)) = stratumCell (PyCell.s v)) ∧
    stratumCell (PyCell.s "2") = PyCell.s "2" ∧
    stratumCell (PyCell.s "2A") = PyCell.s "2" ∧
    stratumCell (PyCell.s "2a") = PyCell.s "2" ∧
    stratumCell (stratumCell PyCell.nan) = stratumCell PyCell.nan ∧
    (∀ n : Int, stratumCell (stratumCell (PyCell.i n)) = stratumCell (PyCell.i n)) ∧
    str_replace_2A "2AA" = "2A" ∧
    str_replace_2A (str_replace_2A "2AA") = "2" := by
  refine ⟨?_, by decide, by decide, by decide, rfl, fun n => rfl, by decide, by decide⟩
  intro v h
  simp only [stratumCell]
  rw [str_replace_2A_no_occ _ h]

/-- Witness for C6's amended statement: "2A" normalizes to "2" and stays
there. -/
theorem stratum_idempotence_amended_witness :
    stratumCell (stratumCell (PyCell.s "2A")) = stratumCell (PyCell.s "2A") :=
  stratum_idempotence_amended.1 "2A" (by decide)

/-- C7: scenario 3: the column c2 = ["abc", ".d", "5.5"] comes out of
the pipeline as [null, 999, 5.5] (the values 999 and 11/2), and the
resulting column dtype is float64. -/
theorem scenario3_c2_column :
    pipeline 2016 [("c2", [SCell.text "abc", SCell.text ".d", SCell.text "5.5"])] =
      [("c2", [none, some (mkRat 999 1), some (mkRat 11 2)])] ∧
    mkRat 999 1 = (999 : Rat) ∧
    mkRat 11 2 = (11 / 2 : Rat) ∧
    inferDtype [none, some (mkRat 999 1), some (mkRat 11 2)] = NDtype.float64 := by
  refine ⟨by decide, ?_, ?_, by decide⟩
  · rw [Rat.mkRat_eq_div]; norm_num
  · rw [Rat.mkRat_eq_div]; norm_num

/-- C8: the batch iterates 2016 through 2022 inclusive in order; each
year reads exactly `<dir>/nsch_<year>_topical.dta`, writes exactly
`<dir>/nsch_<year>_topical.rds`, and prints exactly one line
`Saved: <destination>` per year on success. -/
theorem batch_trace_spec (csv_dir : String)
    (read_stata : String → Except String (Df SCell))
    (hok : ∀ y ∈ years_run, ∃ d, read_stata (dtaPath csv_dir y) = Except.ok d) :
    years_run = [2016, 2017, 2018, 2019, 2020, 2021, 2022] ∧
    (∀ y : Nat, dtaPath csv_dir y = csv_dir ++ "/nsch_" ++ toString y ++ "_topical.dta") ∧
    (∀ y : Nat, rdsPath csv_dir y = csv_dir ++ "/nsch_" ++ toString y ++ "_topical.rds") ∧
    (process_data years_run csv_dir read_stata).reads = years_run.map (dtaPath csv_dir) ∧
    (process_data years_run csv_dir read_stata).written.map Prod.fst =
      years_run.map (rdsPath csv_dir) ∧
    (process_data years_run csv_dir read_stata).console =
      years_run.map (fun y => "Saved: " ++ rdsPath csv_dir y) ∧
    (process_data years_run csv_dir read_stata).error = none := by
  have h := process_data_ok csv_dir read_stata years_run hok
  exact ⟨by decide, fun y => rfl, fun y => rfl, h.1, h.2.1, h.2.2.1, h.2.2.2⟩

/-- Witness for C8 with an always-succeeding reader. -/
theorem batch_trace_spec_witness :
    (process_data years_run "d" (fun _ => Except.ok [])).error = none ∧
    (process_data years_run "d" (fun _ => Except.ok [])).console =
      years_run.map (fun y => "Saved: " ++ rdsPath "d" y) :=
  have h := batch_trace_spec "d" (fun _ => Except.ok []) (fun _ _ => ⟨[], rfl⟩)
  ⟨h.2.2.2.2.2.2, h.2.2.2.2.2.1⟩

/-- C9 counterexample: the claim promises a null output cell for every
stratum sentinel cell, but on a stratum column holding only sentinels
the recoded column has no string element, so the `.str` accessor raises
AttributeError and the program produces no output dataframe at all —
the sentinel cell's "final output cell" does not exist, let alone equal
null. -/
theorem stratum_sentinel_null_counterexample :
    pipelineE 2016 [("stratum", [SCell.missing ".m"])] =
      Except.error "AttributeError: Can only use .str accessor with string values!" := by
  rfl

/-- C9 amended: provided the stratum column also contains at least one
string cell, so that the pandas `.str` accessor accepts it, a stratum
cell holding one of the four sentinel labels is recoded to a non-string
integer 996 to 999, the stratum stage maps that non-string cell to NaN,
and numeric coercion keeps it null: the final output cell is null rather
than the sentinel code, unlike in any other column, where the code
survives to the output.  On a stratum column with no string cells the
program instead raises at the accessor. -/
theorem stratum_sentinel_becomes_null_amended :
    pipelineE 2016 [("stratum", [SCell.text "1", SCell.missing ".m"])] =
      Except.ok [("stratum", [some (mkRat 1 1), none])] ∧
    pipelineE 2016 [("c1", [SCell.text "1", SCell.missing ".m"])] =
      Except.ok [("c1", [some (mkRat 1 1), some (mkRat 996 1)])] ∧
    recodeCell ".m" = PyCell.i 996 ∧ recodeCell ".n" = PyCell.i 997 ∧
    recodeCell ".l" = PyCell.i 998 ∧ recodeCell ".d" = PyCell.i 999 ∧
    stratumCell (PyCell.i 996) = PyCell.nan ∧ stratumCell (PyCell.i 997) = PyCell.nan ∧
    stratumCell (PyCell.i 998) = PyCell.nan ∧ stratumCell (PyCell.i 999) = PyCell.nan ∧
    toNumericCell PyCell.nan = none := by
  refine ⟨rfl, rfl, ?_⟩
  decide

/-- C10: a source-null cell stringifies to "nan", the recode stage
leaves "nan" unchanged, and numeric coercion maps it to the null marker,
so in every non-stratum column a source-null cell is null in the
output. -/
theorem null_roundtrip (data : Df SCell) (year : Nat) (name : String) (cells : List SCell)
    (hmem : (name, cells) ∈ data) (hname : name ≠ "stratum") :
    (name, cells.map (cellPipe name)) ∈ pipeline year data ∧
    cellPipe name SCell.null = none ∧
    SCell.toStr SCell.null = "nan" ∧
    recodeCell "nan" = PyCell.s "nan" ∧
    toNumericCell (PyCell.s "nan") = none := by
  refine ⟨?_, ?_, rfl, by decide, by decide⟩
  · rw [pipeline_cellwise]
    exact List.mem_map_of_mem _ hmem
  · simp only [cellPipe, stratumStep, if_neg hname]
    decide

/-- Witness for C10 on a concrete one-column dataframe. -/
theorem null_roundtrip_witness :
    cellPipe "c1" SCell.null = none :=
  (null_roundtrip [("c1", [SCell.null])] 2016 "c1" [SCell.null]
    (List.mem_singleton.mpr rfl) (by decide)).2.1
